import Mathlib

/-!
Shallow embedding of the `mm-errors` Rust library (src/lib.rs, src/oks.rs):
an error value recording a source location (file, line) and a cause that is
either a plain message or a wrapped underlying error, rendered as nested
XML-like markup; plus an iterator adapter turning each element of a sequence
into an `Ok` result.
-/

namespace MmErrors

mutual

/-- Rust `ErrorKind` from src/lib.rs: either an error message
(`String(String)`) or a wrapped internal error
(`Wrapped(Box<error::Error + Send + Sync>)`). -/
inductive ErrorKind : Type where
  | string : String → ErrorKind
  | wrapped : DynError → ErrorKind

/-- Model of a boxed `error::Error + Send + Sync` trait object: either an
error of this library itself, or an external error characterised by its
`Display` rendering and its own `cause()` result. -/
inductive DynError : Type where
  | mmErr : Error → DynError
  | ext : String → Option DynError → DynError

/-- Rust `Error` from src/lib.rs: file where the error occurred, line
number, and the error kind. -/
inductive Error : Type where
  | mk : String → Nat → ErrorKind → Error

end

/-- Field `file` of `Error`. -/
def Error.file : Error → String
  | .mk f _ _ => f

/-- Field `line` of `Error`. -/
def Error.line : Error → Nat
  | .mk _ l _ => l

/-- Field `kind` of `Error`. -/
def Error.kind : Error → ErrorKind
  | .mk _ _ k => k

/-- Constructor `Error::new(message, file, line)`: builds an error whose
kind is `ErrorKind::String(message.to_string())`. -/
def Error.new (message : String) (file : String) (line : Nat) : Error :=
  .mk file line (.string message)

/-- Constructor `Error::wrap(e, file, line)`: builds an error whose kind is
`ErrorKind::Wrapped(e.into())`. -/
def Error.wrap (e : DynError) (file : String) (line : Nat) : Error :=
  .mk file line (.wrapped e)

mutual

/-- Method `Error::format_xml`: the sequence of `write!` calls in
src/lib.rs lines 237-254, concatenated in order.  The `Wrapped` arm prints
the inner boxed error with `{}`, i.e. its own `Display` rendering. -/
def Error.formatXml : Error → String
  | .mk file line kind =>
    "<error>" ++ ("<file>" ++ file) ++ "</file>" ++
      ("<line>" ++ Nat.repr line) ++ "</line>" ++
      (match kind with
        | .string s => ("<reason>" ++ s) ++ "</reason>"
        | .wrapped e => ("<reason>" ++ DynError.display e) ++ "</reason>") ++
      "</error>"

/-- Rendering (`Display`) of a boxed trait object: for an error of this
library it is `format_xml` (its `Display` impl), for an external error it
is that error's own rendering. -/
def DynError.display : DynError → String
  | .mmErr e => Error.formatXml e
  | .ext s _ => s

end

/-- Impl `fmt::Display for Error`: delegates to `format_xml`. -/
def Error.displayFmt (e : Error) : String :=
  e.formatXml

/-- Impl `fmt::Debug for Error`: `write!(f, "{}", self)`, i.e. the
`Display` rendering of `self`. -/
def Error.debugFmt (e : Error) : String :=
  e.displayFmt

/-- Method `error::Error::description` for `Error`: the constant string. -/
def Error.description (_ : Error) : String :=
  "font processing error"

mutual

/-- Method `error::Error::cause` for `Error`: `None` on a message kind,
and on a wrapped kind the result of the inner boxed error's own
`cause()`. -/
def Error.cause : Error → Option DynError
  | .mk _ _ (.string _) => none
  | .mk _ _ (.wrapped e) => DynError.cause e

/-- Upstream cause of a boxed trait object: for an error of this library
its own `Error::cause`, for an external error whatever its impl reports. -/
def DynError.cause : DynError → Option DynError
  | .mmErr e => Error.cause e
  | .ext _ c => c

end

/-- The `Result<T>` alias of src/lib.rs: `Result<T, Error>`. -/
def MMResult (α : Type) : Type :=
  Except Error α

/-- Expansion of `try_wrap!($exp)` from src/lib.rs lines 310-317: on
`Ok(x)` the value `x` flows on, on `Err(e)` the enclosing function returns
`Err(Error::wrap(e, file!(), line!()))`.  The early return is modelled by
returning the whole enclosing-function outcome as an `Except`. -/
def tryWrapRun {α : Type} (exp : Except DynError α) (file : String)
    (line : Nat) : MMResult α :=
  match exp with
  | .ok x => .ok x
  | .error e => .error (Error.wrap e file line)

/-- Expansion of `new_error!($message)` from src/lib.rs lines 321-325:
`Error::new($message, file!(), line!())`. -/
def newErrorRun (message : String) (file : String) (line : Nat) : Error :=
  Error.new message file line

/-- Expansion of `new_result!($message)` from src/lib.rs lines 361-365:
`Err(new_error!($message))`. -/
def newResultRun (α : Type) (message : String) (file : String)
    (line : Nat) : MMResult α :=
  .error (newErrorRun message file line)

/-- Expansion of `try_opt!($exp, $message)` from src/lib.rs lines 402-409:
on `Some(x)` the value `x` flows on, on `None` the enclosing function
returns `Err(Error::new($message, file!(), line!()))`. -/
def tryOptRun {α : Type} (exp : Option α) (message : String) (file : String)
    (line : Nat) : MMResult α :=
  match exp with
  | some x => .ok x
  | none => .error (Error.new message file line)

/-- Expansion of `try_opt_ref!($exp, $message)` from src/lib.rs lines
412-419: same as `try_opt!` except the `Some(ref x)` arm yields a
reference to the contained value; under value semantics the yielded value
is the same. -/
def tryOptRefRun {α : Type} (exp : Option α) (message : String)
    (file : String) (line : Nat) : MMResult α :=
  match exp with
  | some x => .ok x
  | none => .error (Error.new message file line)

/-- Struct `Oks<T>` from src/oks.rs: the adapter owns its source sequence.
The source iterator is modelled as the list of its remaining items. -/
structure Oks (α : Type) : Type where
  source : List α

/-- Method `Oks::next` from src/oks.rs lines 17-22: pulls the next item
from the source and tags it with `Ok`; yields `None` when the source is
exhausted.  The `&mut self` receiver is modelled by also returning the
updated adapter. -/
def Oks.next {α : Type} (o : Oks α) : Option (MMResult α) × Oks α :=
  match o.source with
  | [] => (none, o)
  | x :: rest => (some (.ok x), ⟨rest⟩)

/-- Method `OksExtension::oks` from src/oks.rs lines 43-47: wraps the
sequence. -/
def oks {α : Type} (source : List α) : Oks α :=
  ⟨source⟩

/-- Driving the iterator to exhaustion: repeatedly call `next` and collect
the produced items in order. -/
def Oks.collect {α : Type} (o : Oks α) : List (MMResult α) :=
  match _h : o.next with
  | (none, _) => []
  | (some item, o') => item :: o'.collect
termination_by o.source.length
decreasing_by
  cases o with
  | mk src =>
    cases src with
    | nil => simp [Oks.next] at _h
    | cons x rest =>
      simp only [Oks.next] at _h
      cases _h
      simp

/-- Number of nested `<error>` elements the library's own chain
contributes to the rendering: one for this error plus, when the cause is a
wrapped error of this library, the nesting of that inner error.  A wrapped
external error renders opaquely as its own text. -/
def Error.xmlDepth : Error → Nat
  | .mk _ _ (.string _) => 1
  | .mk _ _ (.wrapped (.mmErr e)) => Error.xmlDepth e + 1
  | .mk _ _ (.wrapped (.ext _ _)) => 1

/-- Chain built by repeatedly wrapping an error of this library at
successive call sites. -/
def wrapChain (e : Error) : List (String × Nat) → Error
  | [] => e
  | (f, l) :: rest => wrapChain (Error.wrap (.mmErr e) f l) rest

/-- State-passing form of the `&self` observer `format_xml`/`Display`:
returns the rendering together with the receiver. -/
def Error.displaySt (e : Error) : String × Error :=
  (e.displayFmt, e)

/-- State-passing form of the `&self` observer in the `Debug` impl. -/
def Error.debugSt (e : Error) : String × Error :=
  (e.debugFmt, e)

/-- State-passing form of the `&self` observer `description`. -/
def Error.descriptionSt (e : Error) : String × Error :=
  (e.description, e)

/-- State-passing form of the `&self` observer `cause`. -/
def Error.causeSt (e : Error) : Option DynError × Error :=
  (e.cause, e)

theorem append_file_line (a : String) :
    a ++ "</file>" ++ "<line>" = a ++ "</file><line>" := by
  rw [String.append_assoc]; rfl

theorem append_line_reason (a : String) :
    a ++ "</line>" ++ "<reason>" = a ++ "</line><reason>" := by
  rw [String.append_assoc]; rfl

theorem append_reason_error (a : String) :
    a ++ "</reason>" ++ "</error>" = a ++ "</reason></error>" := by
  rw [String.append_assoc]; rfl

theorem collect_nil {α : Type} : (Oks.mk ([] : List α)).collect = [] := by
  rw [Oks.collect]; simp [Oks.next]

theorem collect_cons {α : Type} (x : α) (rest : List α) :
    (Oks.mk (x :: rest)).collect = .ok x :: (Oks.mk rest).collect := by
  rw [Oks.collect]; simp [Oks.next]

/-- C1: for every message `m`, file `f` and line `l`, the error built by
`Error::new(m, f, l)` renders under `Display`/`format_xml` to exactly
`<error><file>f</file><line>l</line><reason>m</reason></error>`, with no
whitespace between tags and the message emitted verbatim, unescaped. -/
theorem new_renders_leaf (m f : String) (l : Nat) :
    (Error.new m f l).displayFmt =
      "<error><file>" ++ f ++ "</file><line>" ++ Nat.repr l ++
        "</line><reason>" ++ m ++ "</reason></error>" := by
  simp [Error.displayFmt, Error.formatXml, Error.new, ← String.append_assoc,
    append_file_line, append_line_reason, append_reason_error]

/-- C2: wrapping an error `E1` at `(f2, l2)` renders to exactly
`<error><file>f2</file><line>l2</line><reason>` + render(E1) +
`</reason></error>`, the inner rendering emitted verbatim inside
`<reason>`; and for every chain built by repeated wrapping, each wrap adds
exactly one `<error>` nesting level, so a chain of `k` wraps around a
wrapped external failure has nesting depth exactly `k`. -/
theorem wrap_renders_nested :
    (∀ (e1 : Error) (f2 : String) (l2 : Nat),
      (Error.wrap (.mmErr e1) f2 l2).displayFmt =
        "<error><file>" ++ f2 ++ "</file><line>" ++ Nat.repr l2 ++
          "</line><reason>" ++ e1.displayFmt ++ "</reason></error>") ∧
    (∀ (e1 : Error) (f2 : String) (l2 : Nat),
      (Error.wrap (.mmErr e1) f2 l2).xmlDepth = e1.xmlDepth + 1) ∧
    (∀ (e : Error) (locs : List (String × Nat)),
      (wrapChain e locs).xmlDepth = e.xmlDepth + locs.length) ∧
    (∀ (s : String) (c : Option DynError) (f : String) (l : Nat)
        (locs : List (String × Nat)),
      (wrapChain (Error.wrap (.ext s c) f l) locs).xmlDepth =
        locs.length + 1) := by
  have hwrap : ∀ (e1 : Error) (f2 : String) (l2 : Nat),
      (Error.wrap (.mmErr e1) f2 l2).displayFmt =
        "<error><file>" ++ f2 ++ "</file><line>" ++ Nat.repr l2 ++
          "</line><reason>" ++ e1.displayFmt ++ "</reason></error>" := by
    intro e1 f2 l2
    simp [Error.displayFmt, Error.formatXml, Error.wrap, DynError.display,
      ← String.append_assoc, append_file_line, append_line_reason,
      append_reason_error]
  have hchain : ∀ (locs : List (String × Nat)) (e : Error),
      (wrapChain e locs).xmlDepth = e.xmlDepth + locs.length := by
    intro locs
    induction locs with
    | nil => intro e; simp [wrapChain]
    | cons p rest ih =>
      intro e
      cases p with
      | mk f l =>
        simp only [wrapChain, ih, Error.wrap, Error.xmlDepth,
          List.length_cons]
        omega
  refine ⟨hwrap, ?_, fun e locs => hchain locs e, ?_⟩
  · intro e1 f2 l2
    simp [Error.wrap, Error.xmlDepth]
  · intro s c f l locs
    rw [hchain locs (Error.wrap (.ext s c) f l)]
    simp [Error.wrap, Error.xmlDepth]
    omega

/-- C3: the `try_wrap!` construct yields the success value unchanged when
the expression succeeds; when it fails it returns from the enclosing
function with `Err` of a new error whose kind is `Wrapped` around the
original failure and whose file/line are the call site's, never yielding a
success value in that case. -/
theorem try_wrap_propagates :
    (∀ (α : Type) (x : α) (f : String) (l : Nat),
      tryWrapRun (.ok x) f l = .ok x) ∧
    (∀ (α : Type) (e : DynError) (f : String) (l : Nat),
      tryWrapRun (α := α) (.error e) f l =
        .error (Error.wrap e f l)) ∧
    (∀ (e : DynError) (f : String) (l : Nat),
      (Error.wrap e f l).kind = .wrapped e ∧
      (Error.wrap e f l).file = f ∧ (Error.wrap e f l).line = l) ∧
    (∀ (α : Type) (e : DynError) (f : String) (l : Nat) (x : α),
      tryWrapRun (.error e) f l ≠ .ok x) := by
  refine ⟨fun α x f l => rfl, fun α e f l => rfl, fun e f l => ⟨rfl, rfl, rfl⟩,
    fun α e f l x h => ?_⟩
  simp [tryWrapRun] at h

/-- C4: the `cause` accessor returns `None` when the error's kind is a
plain message, and on a `Wrapped` kind it returns the inner boxed error's
own `cause()` result — a delegation, not the inner error itself.  In
particular a depth-3 chain of library errors over a message leaf reports
no upstream cause at any level (never `Some` of the inner error), and a
wrapped external error's reported cause is that error's own. -/
theorem cause_delegates :
    (∀ (f : String) (l : Nat) (s : String),
      (Error.mk f l (.string s)).cause = none) ∧
    (∀ (f : String) (l : Nat) (d : DynError),
      (Error.mk f l (.wrapped d)).cause = d.cause) ∧
    (∀ (s : String) (c : Option DynError) (f : String) (l : Nat),
      (Error.wrap (.ext s c) f l).cause = c) ∧
    ((Error.wrap (.mmErr (Error.wrap (.mmErr (Error.new "m0" "f0" 10))
        "f1" 20)) "f2" 30).cause = none ∧
      (Error.wrap (.mmErr (Error.new "m0" "f0" 10)) "f1" 20).cause =
        none ∧
      (Error.wrap (.mmErr (Error.wrap (.mmErr (Error.new "m0" "f0" 10))
          "f1" 20)) "f2" 30).cause ≠
        some (.mmErr (Error.wrap (.mmErr (Error.new "m0" "f0" 10))
          "f1" 20))) := by
  refine ⟨fun f l s => rfl, fun f l d => rfl, fun s c f l => rfl,
    rfl, rfl, ?_⟩
  simp [Error.wrap, Error.new, Error.cause, DynError.cause]

/-- C5: iterating the `Oks` adapter over a finite source of length `N`
produces exactly `N` items, each the `Ok` tag around the corresponding
source element in source order — i.e. the collected output is the map of
`Ok` over the source — and on source `[0, 1, 2, 3]` it yields exactly
`Ok 0, Ok 1, Ok 2, Ok 3`; no item is an error. -/
theorem oks_preserves_order_count :
    (∀ (α : Type) (xs : List α),
      (oks xs).collect = xs.map Except.ok) ∧
    (∀ (α : Type) (xs : List α),
      (oks xs).collect.length = xs.length) ∧
    (oks [0, 1, 2, 3]).collect = [.ok 0, .ok 1, .ok 2, .ok 3] := by
  have hmap : ∀ (α : Type) (xs : List α),
      (oks xs).collect = xs.map Except.ok := by
    intro α xs
    induction xs with
    | nil => simp [oks, collect_nil]
    | cons x rest ih =>
      simp only [oks] at ih ⊢
      rw [collect_cons, ih, List.map_cons]
  refine ⟨hmap, fun α xs => ?_, ?_⟩
  · rw [hmap]; simp
  · rw [hmap]; rfl

/-- C6: the `try_opt!` construct (and its by-reference variant
`try_opt_ref!`) yields the contained value when the optional is present;
when it is absent it returns from the enclosing function with `Err` of a
leaf error whose kind is the given message string and whose file/line are
the call site's.  In particular an empty optional with message
"Stack underflow!" produces a leaf error whose reason is exactly
"Stack underflow!". -/
theorem try_opt_unwraps_or_fails :
    (∀ (α : Type) (x : α) (msg f : String) (l : Nat),
      tryOptRun (some x) msg f l = .ok x ∧
      tryOptRefRun (some x) msg f l = .ok x) ∧
    (∀ (α : Type) (msg f : String) (l : Nat),
      tryOptRun (α := α) none msg f l = .error (Error.new msg f l) ∧
      tryOptRefRun (α := α) none msg f l = .error (Error.new msg f l)) ∧
    (∀ (msg f : String) (l : Nat),
      (Error.new msg f l).kind = .string msg ∧
      (Error.new msg f l).file = f ∧ (Error.new msg f l).line = l) ∧
    (∀ (f : String) (l : Nat),
      tryOptRun (α := Nat) none "Stack underflow!" f l =
        .error (Error.mk f l (.string "Stack underflow!"))) :=
  ⟨fun α x msg f l => ⟨rfl, rfl⟩, fun α msg f l => ⟨rfl, rfl⟩,
    fun msg f l => ⟨rfl, rfl, rfl⟩, fun f l => rfl⟩

/-- C7: the `new_result!` construct yields `Err` of a leaf error whose
kind is the message string (not `Wrapped`), stamped with the call site's
file and line, and that error renders as a single `<error>` element whose
reason is exactly the message, with no nested `<error>` element
(its nesting count is 1). -/
theorem new_result_leaf_err :
    (∀ (α : Type) (msg f : String) (l : Nat),
      newResultRun α msg f l = .error (Error.new msg f l)) ∧
    (∀ (msg f : String) (l : Nat),
      (Error.new msg f l).kind = .string msg ∧
      (Error.new msg f l).file = f ∧ (Error.new msg f l).line = l) ∧
    (∀ (msg f : String) (l : Nat),
      (Error.new msg f l).displayFmt =
        "<error><file>" ++ f ++ "</file><line>" ++ Nat.repr l ++
          "</line><reason>" ++ msg ++ "</reason></error>" ∧
      (Error.new msg f l).xmlDepth = 1) :=
  ⟨fun α msg f l => rfl, fun msg f l => ⟨rfl, rfl, rfl⟩,
    fun msg f l => ⟨new_renders_leaf msg f l, rfl⟩⟩

/-- C8: the `description` accessor returns the same single static constant
string for every error, regardless of the error's kind or content. -/
theorem description_constant :
    (∀ e : Error, e.description = "font processing error") ∧
    (∀ e1 e2 : Error, e1.description = e2.description) :=
  ⟨fun _ => rfl, fun _ _ => rfl⟩

/-- C9: an error's fields are fixed at construction — `Error::new` and
`Error::wrap` set `file`, `line` and `kind` exactly from their arguments —
and the library's `&self` observers (rendering, debug rendering,
description, upstream-cause lookup) leave the error unchanged. -/
theorem error_immutable :
    (∀ (m f : String) (l : Nat),
      (Error.new m f l).file = f ∧ (Error.new m f l).line = l ∧
      (Error.new m f l).kind = .string m) ∧
    (∀ (d : DynError) (f : String) (l : Nat),
      (Error.wrap d f l).file = f ∧ (Error.wrap d f l).line = l ∧
      (Error.wrap d f l).kind = .wrapped d) ∧
    (∀ e : Error,
      e.displaySt.2 = e ∧ e.debugSt.2 = e ∧ e.descriptionSt.2 = e ∧
      e.causeSt.2 = e) :=
  ⟨fun m f l => ⟨rfl, rfl, rfl⟩, fun d f l => ⟨rfl, rfl, rfl⟩,
    fun e => ⟨rfl, rfl, rfl, rfl⟩⟩

/-- C10: the `Debug` formatting of every error produces exactly the same
text as its `Display` formatting — the `Debug` impl writes `self` with
`{}`, i.e. the nested markup rendering. -/
theorem debug_eq_display (e : Error) :
    e.debugFmt = e.displayFmt :=
  rfl

end MmErrors
